import Mathlib

/-!
Verification development for the music-segmentation repository.

The two modules with algorithmic content are embedded shallowly:
* `src/src/features/msaf_segmentation.py` — boundary merge, tick
  quantization (`get_nearest`), letter labeling (`segment_song`).
* `src/src/preprocessing/msaf/base.py` — the `Features` cache layer
  (`read_features`, `write_features`, `compute_beat_sync_features`,
  the `features` getter selection, `__init__`).

Python floats are modelled as rationals; Python exceptions as explicit
error values in `Except`.
-/

deriving instance DecidableEq for Except

namespace MusicSeg

/-- Errors of the segmentation script. `indexErr` models a Python
`IndexError`, `valueErr` the `ValueError` raised by `get_nearest` on a bad
string argument, `zeroDiv` a `ZeroDivisionError`. `noBoundariesFound` is
the error named by the specification taxonomy; the source never raises it
(it is declared here only so that statements about it can be expressed). -/
inductive SegErr where
  | indexErr
  | valueErr
  | zeroDiv
  | noBoundariesFound
deriving DecidableEq, Repr

/-- MIN_SEGMENT_LEN = 3 (seconds), msaf_segmentation.py line 16. -/
def MIN_SEGMENT_LEN : ℚ := 3

/-- Python list indexing `xs[i]` for a non-negative index: the element when
in range, otherwise an `IndexError`. -/
def pyIndex {α : Type} [Inhabited α] (xs : List α) (i : ℕ) : Except SegErr α :=
  if i < xs.length then .ok (xs.getD i default) else .error .indexErr

/-- Body of the merge loop of `segment_song` (lines 41-44): iterate over the
given index list (the source iterates `range(1, len(boundaries))`), keeping
`boundaries[i]` and `labels[i]` exactly when
`boundaries[i] - boundaries[i-1] > MIN_SEGMENT_LEN`. -/
def mergeLoop (bs : List ℚ) (ls : List ℤ) (m : ℚ) : List ℕ → Except SegErr (List ℚ × List ℤ)
  | [] => .ok ([], [])
  | i :: rest => do
      let bi ← pyIndex bs i
      let bprev ← pyIndex bs (i - 1)
      if bi - bprev > m then do
        let li ← pyIndex ls i
        let (rb, rl) ← mergeLoop bs ls m rest
        pure (bi :: rb, li :: rl)
      else
        mergeLoop bs ls m rest

/-- Merge pass of `segment_song` (lines 38-47): start from
`[boundaries[0]]`, `[labels[0]]` (an `IndexError` when either is empty) and
run the loop over `range(1, len(boundaries))`. -/
def mergePass (bs : List ℚ) (ls : List ℤ) (m : ℚ) : Except SegErr (List ℚ × List ℤ) :=
  match bs, ls with
  | [], _ => .error .indexErr
  | _ :: _, [] => .error .indexErr
  | b0 :: _, l0 :: _ => do
      let (rb, rl) ← mergeLoop bs ls m (List.range' 1 (bs.length - 1))
      pure (b0 :: rb, l0 :: rl)

/-- Embedding of `get_nearest` (msaf_segmentation.py lines 56-70).
The grid multiple is `beat_resolution` for "beat" and `beat_resolution * 4`
for "downbeat"; any other string raises a `ValueError`. Then
`factor = num // multiple`, `remainder = num % multiple` (Python float
floor-division and modulo), and the result rounds down exactly when
`remainder < multiple // 2` (integer division). A zero multiple would
raise `ZeroDivisionError` in Python. -/
def get_nearest (beat_resolution : ℕ) (num : ℚ) (nearest : String) : Except SegErr ℚ :=
  match (if nearest = "beat" then some beat_resolution
         else if nearest = "downbeat" then some (beat_resolution * 4)
         else none) with
  | none => .error .valueErr
  | some multiple =>
      if multiple = 0 then .error .zeroDiv
      else
        let factor : ℤ := ⌊num / (multiple : ℚ)⌋
        let remainder : ℚ := num - (multiple : ℚ) * (factor : ℚ)
        if remainder < ((multiple / 2 : ℕ) : ℚ) then .ok ((multiple : ℚ) * (factor : ℚ))
        else .ok ((multiple : ℚ) * ((factor : ℚ) + 1))

/-- Quantization loop of `segment_song` (lines 72-78): `prev_l` starts at
`-1` and — exactly as in the source — is never reassigned inside the loop,
so it is threaded through unchanged. -/
def quantLoop (br : ℕ) (tps : ℚ) (prev_l : ℤ) : List (ℚ × ℤ) → Except SegErr (List ℚ)
  | [] => .ok []
  | (b, l) :: rest => do
      let t ← if l ≠ prev_l then get_nearest br (b * tps) "downbeat"
              else get_nearest br (b * tps) "beat"
      let ts ← quantLoop br tps prev_l rest
      pure (t :: ts)

/-- The 26 uppercase letters, `string.ascii_uppercase`. -/
def ascii_uppercase : List String :=
  ["A", "B", "C", "D", "E", "F", "G", "H", "I", "J", "K", "L", "M",
   "N", "O", "P", "Q", "R", "S", "T", "U", "V", "W", "X", "Y", "Z"]

/-- Association-list lookup (first match), modelling Python dict access. -/
def alist_lookup {α β : Type} [DecidableEq α] : List (α × β) → α → Option β
  | [], _ => none
  | (a, b) :: rest, k => if a = k then some b else alist_lookup rest k

/-- Labeling pass of `segment_song` (lines 82-88): each distinct label gets
`string.ascii_uppercase[len(label_map)]` at first appearance (an
`IndexError` past 26 distinct labels). The map preserves insertion order,
like a Python dict. -/
def letter_loop : List ℤ → List (ℤ × String) → Except SegErr (List String)
  | [], _ => .ok []
  | l :: rest, label_map =>
      match alist_lookup label_map l with
      | some c => do
          let r ← letter_loop rest label_map
          pure (c :: r)
      | none =>
          match ascii_uppercase.get? label_map.length with
          | none => .error .indexErr
          | some c => do
              let r ← letter_loop rest (label_map ++ [(l, c)])
              pure (c :: r)

/-- Conversion of quantized ticks back to seconds (line 80): each tick is
divided by `ticks_per_second`; a zero divisor raises `ZeroDivisionError`. -/
def secondsLoop (tps : ℚ) : List ℚ → Except SegErr (List ℚ)
  | [] => .ok []
  | tb :: rest =>
      if tps = 0 then .error .zeroDiv
      else do
        let r ← secondsLoop tps rest
        pure (tb / tps :: r)

/-- Embedding of `segment_song` (msaf_segmentation.py lines 34-90), taking
the external collaborators as inputs: `boundaries`/`labels` from
`msaf.process`, `tempo` and `beat_resolution` from the loaded multitrack.
`ticks_per_second = (tempo * beat_resolution) // 60` (float floor
division). Returns `(second_boundaries, tick_boundaries, letter_labels)`. -/
def segment_song (boundaries : List ℚ) (labels : List ℤ) (tempo : ℚ)
    (beat_resolution : ℕ) : Except SegErr (List ℚ × List ℚ × List String) := do
  let (bs, ls) ← mergePass boundaries labels MIN_SEGMENT_LEN
  let tps : ℚ := ((⌊tempo * (beat_resolution : ℚ) / 60⌋ : ℤ) : ℚ)
  let ticks ← quantLoop beat_resolution tps (-1) (bs.zip ls)
  let seconds ← secondsLoop tps ticks
  let letters ← letter_loop ls []
  pure (seconds, ticks, letters)

/-- Claimed kept-index set of the merge pass: index 0 always, and `i ≥ 1`
exactly when `bs[i] - bs[i-1] > m` against the raw predecessor. -/
def keptIdx (bs : List ℚ) (m : ℚ) : List ℕ :=
  0 :: (List.range' 1 (bs.length - 1)).filter
    (fun i => decide (bs.getD i 0 - bs.getD (i - 1) 0 > m))

/-- Rounding rule exactly as claim C7 words it: round down when the
remainder is below the true half `m / 2` of the grid multiple. -/
def claimed_nearest (num : ℚ) (m : ℕ) : ℚ :=
  if num - (m : ℚ) * ((⌊num / (m : ℚ)⌋ : ℤ) : ℚ) < (m : ℚ) / 2
  then (m : ℚ) * ((⌊num / (m : ℚ)⌋ : ℤ) : ℚ)
  else (m : ℚ) * (((⌊num / (m : ℚ)⌋ : ℤ) : ℚ) + 1)

/-- Rounding rule as the source computes it: round down when the remainder
is below the integer half `m / 2` (Nat floor division, `multiple // 2`). -/
def amended_nearest (num : ℚ) (m : ℕ) : ℚ :=
  if num - (m : ℚ) * ((⌊num / (m : ℚ)⌋ : ℤ) : ℚ) < ((m / 2 : ℕ) : ℚ)
  then (m : ℚ) * ((⌊num / (m : ℚ)⌋ : ℤ) : ℚ)
  else (m : ℚ) * (((⌊num / (m : ℚ)⌋ : ℤ) : ℚ) + 1)

theorem except_bind_ok {ε α β : Type} (x : α) (f : α → Except ε β) :
    (Except.ok x : Except ε α).bind f = f x := rfl

theorem except_bind_error {ε α β : Type} (e : ε) (f : α → Except ε β) :
    (Except.error e : Except ε α).bind f = .error e := rfl

theorem except_pure_eq {ε α : Type} (x : α) : (pure x : Except ε α) = .ok x := rfl

theorem bind_eq_except_bind {ε α β : Type} (x : Except ε α) (f : α → Except ε β) :
    x >>= f = x.bind f := rfl

theorem default_rat : (default : ℚ) = 0 := rfl

theorem default_int : (default : ℤ) = 0 := rfl

attribute [simp] except_bind_ok except_bind_error except_pure_eq bind_eq_except_bind
attribute [simp] default_rat default_int

/-- Unfolding of `get_nearest` at the literal "beat" argument. -/
theorem get_nearest_beat (br : ℕ) (num : ℚ) :
    get_nearest br num "beat" =
      if br = 0 then .error .zeroDiv
      else if num - (br : ℚ) * ((⌊num / (br : ℚ)⌋ : ℤ) : ℚ) < ((br / 2 : ℕ) : ℚ)
        then .ok ((br : ℚ) * ((⌊num / (br : ℚ)⌋ : ℤ) : ℚ))
        else .ok ((br : ℚ) * (((⌊num / (br : ℚ)⌋ : ℤ) : ℚ) + 1)) := by
  simp [get_nearest]

/-- Unfolding of `get_nearest` at the literal "downbeat" argument. -/
theorem get_nearest_downbeat (br : ℕ) (num : ℚ) :
    get_nearest br num "downbeat" =
      if br * 4 = 0 then .error .zeroDiv
      else if num - ((br * 4 : ℕ) : ℚ) * ((⌊num / ((br * 4 : ℕ) : ℚ)⌋ : ℤ) : ℚ)
               < ((br * 4 / 2 : ℕ) : ℚ)
        then .ok (((br * 4 : ℕ) : ℚ) * ((⌊num / ((br * 4 : ℕ) : ℚ)⌋ : ℤ) : ℚ))
        else .ok (((br * 4 : ℕ) : ℚ) * (((⌊num / ((br * 4 : ℕ) : ℚ)⌋ : ℤ) : ℚ) + 1)) := by
  simp [get_nearest]

/-- The merge loop keeps exactly the indices whose boundary is more than
`m` past its raw predecessor, in order. -/
theorem mergeLoop_eq_filter (bs : List ℚ) (ls : List ℤ) (m : ℚ)
    (hlen : ls.length = bs.length) (is : List ℕ) (hin : ∀ i ∈ is, i < bs.length) :
    mergeLoop bs ls m is =
      .ok (((is.filter fun i => decide (bs.getD i 0 - bs.getD (i - 1) 0 > m)).map
              fun i => bs.getD i 0),
           ((is.filter fun i => decide (bs.getD i 0 - bs.getD (i - 1) 0 > m)).map
              fun i => ls.getD i 0)) := by
  induction is with
  | nil => simp [mergeLoop]
  | cons i rest ih =>
      have hi : i < bs.length := hin i (List.mem_cons_self i rest)
      have hi' : i - 1 < bs.length := lt_of_le_of_lt (Nat.sub_le i 1) hi
      have hil : i < ls.length := hlen ▸ hi
      have hrest : ∀ j ∈ rest, j < bs.length := fun j hj => hin j (List.mem_cons_of_mem i hj)
      have hpb : pyIndex bs i = .ok (bs.getD i 0) := by
        simp only [pyIndex, if_pos hi, default_rat]
      have hpb' : pyIndex bs (i - 1) = .ok (bs.getD (i - 1) 0) := by
        simp only [pyIndex, if_pos hi', default_rat]
      have hpl : pyIndex ls i = .ok (ls.getD i 0) := by
        simp only [pyIndex, if_pos hil, default_int]
      simp only [mergeLoop, bind_eq_except_bind, hpb, hpb', hpl, except_bind_ok,
        ih hrest, List.filter_cons, decide_eq_true_eq, except_pure_eq]
      by_cases hc : bs.getD i 0 - bs.getD (i - 1) 0 > m
      · rw [if_pos hc, if_pos hc]
        simp only [except_bind_ok, except_pure_eq, List.map_cons]
      · rw [if_neg hc, if_neg hc]

/-- C6: the merge pass of `segment_song` always keeps boundary 0, and keeps
boundary `i ≥ 1` exactly when `rawBoundaries[i] - rawBoundaries[i-1]`
exceeds the minimum segment length, the difference being taken against the
raw predecessor; labels are kept or dropped with their boundaries. -/
theorem merge_pass_keeps_raw_gaps (bs : List ℚ) (ls : List ℤ) (m : ℚ)
    (hlen : ls.length = bs.length) (hne : bs ≠ []) :
    mergePass bs ls m =
      .ok ((keptIdx bs m).map (fun i => bs.getD i 0),
           (keptIdx bs m).map (fun i => ls.getD i 0)) ∧
    0 ∈ keptIdx bs m ∧
    (∀ i, 1 ≤ i → i < bs.length →
      (i ∈ keptIdx bs m ↔ bs.getD i 0 - bs.getD (i - 1) 0 > m)) := by
  refine ⟨?_, ?_, ?_⟩
  · match bs, ls, hlen, hne with
    | [], _, _, hne => exact absurd rfl hne
    | _ :: _, [], hlen, _ => simp at hlen
    | b0 :: bt, l0 :: lt, hlen, _ =>
        have hin : ∀ i ∈ List.range' 1 ((b0 :: bt).length - 1), i < (b0 :: bt).length := by
          intro i hi
          have := List.mem_range'_1.mp hi
          omega
        rw [mergePass]
        rw [mergeLoop_eq_filter (b0 :: bt) (l0 :: lt) m hlen _ hin]
        simp [keptIdx]
  · exact List.mem_cons_self 0 _
  · intro i h1 h2
    simp only [keptIdx, List.mem_cons, List.mem_filter, List.mem_range'_1,
      decide_eq_true_eq]
    constructor
    · rintro (rfl | ⟨_, hc⟩)
      · omega
      · exact hc
    · intro hc
      right
      exact ⟨⟨h1, by omega⟩, hc⟩

/-- Witness for C6, the example from the specification: boundaries
[0, 1, 5, 6, 12] with threshold 3 keep exactly [0, 5, 12]. -/
theorem merge_pass_keeps_raw_gaps_witness :
    ([10, 20, 30, 40, 50] : List ℤ).length = ([0, 1, 5, 6, 12] : List ℚ).length ∧
    mergePass [0, 1, 5, 6, 12] [10, 20, 30, 40, 50] 3 = .ok ([0, 5, 12], [10, 30, 50]) := by
  refine ⟨rfl, ?_⟩
  have h := (merge_pass_keeps_raw_gaps [0, 1, 5, 6, 12] [10, 20, 30, 40, 50] 3 rfl
    (by simp)).1
  rw [h]
  norm_num [keptIdx, List.range', List.filter_cons]

/-- C7 counterexample: the claim rounds down whenever the remainder is
below the true half `m / 2`, but for the odd beat-grid multiple `m = 3` and
raw tick 1 the source compares against `3 // 2 = 1` and rounds up to 3,
while the claimed rule gives 0. -/
theorem get_nearest_true_half_counterexample :
    get_nearest 3 1 "beat" = .ok 3 ∧ claimed_nearest 1 3 = 0 ∧ ((3 : ℚ) ≠ 0) := by
  refine ⟨?_, ?_, by norm_num⟩
  · rw [get_nearest_beat]
    norm_num
  · rw [claimed_nearest]
    norm_num

/-- C7 amended: `get_nearest` rounds the raw tick down to `m * (num div m)`
exactly when `num mod m` is below the integer half `m // 2` (Nat floor
division) and up to `m * (num div m + 1)` otherwise, with
`m = beatResolution` on the beat grid and `m = 4 * beatResolution` on the
downbeat grid; ties at the exact half of an even multiple round up. -/
theorem get_nearest_rounds_at_integer_half (br : ℕ) (num : ℚ) (h : 0 < br) :
    get_nearest br num "beat" = .ok (amended_nearest num br) ∧
    get_nearest br num "downbeat" = .ok (amended_nearest num (br * 4)) := by
  have h0 : br ≠ 0 := Nat.pos_iff_ne_zero.mp h
  have h4 : br * 4 ≠ 0 := by omega
  constructor
  · rw [get_nearest_beat, if_neg h0, amended_nearest, apply_ite (Except.ok (ε := SegErr))]
  · rw [get_nearest_downbeat, if_neg h4, amended_nearest, apply_ite (Except.ok (ε := SegErr))]

/-- Witness for C7 amended, also the tie example of the claim: multiple 4,
raw tick 2, remainder 2 equals the half 4 // 2 = 2, so the result rounds up
to 4, not down to 0. -/
theorem get_nearest_rounds_at_integer_half_witness :
    0 < 1 ∧ get_nearest 1 2 "downbeat" = .ok 4 := by
  refine ⟨Nat.one_pos, ?_⟩
  have h := (get_nearest_rounds_at_integer_half 1 2 Nat.one_pos).2
  rw [h]
  norm_num [amended_nearest]

/-- C8 counterexample: on an empty boundary sequence `segment_song` fails
with a plain out-of-range `IndexError` (from `boundaries[0]`), not with the
`NoBoundariesFound` error the claim names — no such error exists in the
source. -/
theorem segment_song_empty_counterexample :
    segment_song [] [] 60 2 = .error .indexErr ∧
    segment_song [] [] 60 2 ≠ .error .noBoundariesFound := by
  have h : segment_song [] [] 60 2 = .error .indexErr := by
    simp only [segment_song, mergePass, bind_eq_except_bind, except_bind_error]
  refine ⟨h, ?_⟩
  rw [h]
  simp

/-- C8 amended: whenever the external oracle returns an empty
`rawBoundaries` sequence, `segment_song` fails with an out-of-range
`IndexError` when indexing the first boundary. -/
theorem segment_song_empty_index_error (ls : List ℤ) (tempo : ℚ) (br : ℕ) :
    segment_song [] ls tempo br = .error .indexErr := by
  simp only [segment_song, mergePass, bind_eq_except_bind, except_bind_error]

/-- C2: the quantization loop initializes `prev_l = -1` and never updates
it, so a kept boundary whose label equals its predecessor's label still
snaps to the downbeat grid. With boundaries [0, 5], labels [7, 7],
tempo 60, beat resolution 2 (so ticksPerSecond = 2), the second raw tick 10
is snapped on the downbeat grid (multiple 8) to 8; the claimed rule
(unchanged label, beat grid, multiple 2) would keep it at 10, as the second
conjunct shows. -/
theorem quantization_never_updates_prev_label :
    segment_song [0, 5] [7, 7] 60 2 = .ok ([0, 4], [0, 8], ["A", "A"]) ∧
    get_nearest 2 10 "beat" = .ok 10 := by
  constructor
  · norm_num [segment_song, mergePass, mergeLoop, pyIndex, quantLoop,
      get_nearest_beat, get_nearest_downbeat, secondsLoop, letter_loop,
      alist_lookup, ascii_uppercase, MIN_SEGMENT_LEN, List.range',
      List.zip_cons_cons, List.get?]
  · rw [get_nearest_beat]
    norm_num

/-!
Cache layer of `src/src/preprocessing/msaf/base.py`: the `Features` base
class with `read_features`, `write_features`, `compute_beat_sync_features`,
the selection step of the `features` getter, and `__init__`.
-/

/-- Exceptions of the msaf cache layer. The first four mirror the msaf
exception classes raised by `read_features` (lines 243-253);
`typeErr` and `attributeErr` model the uncaught Python `TypeError` of
`float(None)` and `AttributeError` of `None.tolist()`; `ioErr` an
`IOError` outside the guarded open. -/
inductive MsafError where
  | wrongFeaturesFormat
  | featuresNotFound
  | noFeaturesFile
  | featureParams
  | featureTypeNotFound
  | typeErr
  | attributeErr
  | ioErr
deriving DecidableEq, Repr

/-- np.isclose(a, b, rtol) with numpy's default atol = 1e-8
(base.py lines 198-201). -/
def isclose (a b rtol : ℚ) : Prop := |a - b| ≤ 1 / 100000000 + rtol * |b|

instance (a b r : ℚ) : Decidable (isclose a b r) := by
  unfold isclose
  exact inferInstance

/-- os.path.basename: the final component after the last "/". -/
def basename (p : String) : String := (p.splitOn "/").getLastD ""

/-- A parameter attribute value as the fingerprinting code sees it: a
callable is fingerprinted by its __name__, any other value by str(value)
(base.py lines 213-223 and 296-303). -/
inductive ParamValue where
  | callable (fname : String)
  | plain (strVal : String)
deriving DecidableEq, Repr

/-- The fingerprint string of one parameter value. -/
def fingerprint : ParamValue → String
  | .callable n => n
  | .plain s => s

/-- The "globals" object of the sidecar JSON (base.py lines 273-279).
`dur` and `tempo` may hold JSON null when the writer's attributes were
None. -/
structure GlobalsJson where
  dur : Option ℚ
  tempo : Option ℚ
  sample_rate : ℤ
  hop_length : ℤ
  audio_file : String
deriving DecidableEq, Repr

/-- One per-feature block of the sidecar (params plus matrices). -/
structure FeatureBlock where
  params : List (String × String)
  framesync : List (List ℚ)
  est_beatsync : List (List ℚ)
  ann_beatsync : Option (List (List ℚ))
deriving DecidableEq, Repr

/-- The on-disk JSON sidecar. Every top-level key can be independently
absent, and feature blocks are keyed by feature id in insertion order. -/
structure SidecarFile where
  metadata : Option String
  globals : Option GlobalsJson
  est_beats : Option (List ℚ)
  est_beatsync_times : Option (List ℚ)
  ann_beats : Option (List ℚ)
  ann_beatsync_times : Option (List ℚ)
  blocks : List (String × FeatureBlock)
deriving DecidableEq, Repr

/-- The `feat_type` attribute: one of the three `FeatureTypes` enum
members, or (`invalid`) any other value the dynamic attribute could hold,
which the getter treats as an unrecognized type. -/
inductive FeatType where
  | framesync
  | est_beatsync
  | ann_beatsync
  | invalid (s : String)
deriving DecidableEq, Repr

/-- The attribute state of a `Features` object relevant to the cache
protocol (base.py lines 57-100 plus the subclass parameter attributes). -/
structure FeaturesState where
  featureId : String
  audio_file : String
  dur : Option ℚ
  tempo : Option ℚ
  sr : ℤ
  hop_length : ℤ
  feat_type : FeatType
  params : List (String × ParamValue)
  framesync_features : Option (List (List ℚ))
  est_beatsync_features : Option (List (List ℚ))
  ann_beatsync_features : Option (List (List ℚ))
  est_beats_times : Option (List ℚ)
  est_beatsync_times : Option (List ℚ)
  est_beats_frames : Option (List ℚ)
  ann_beats_times : Option (List ℚ)
  ann_beatsync_times : Option (List ℚ)
  ann_beats_frames : Option (List ℚ)
deriving DecidableEq, Repr

/-- Embedding of `Features.__init__` (base.py lines 57-100). The `sr`,
`hop_length` and `feat_type` arguments are accepted but the constructor
assigns the constants `1`, `1` and `FeatureTypes.ann_beatsync` instead
(lines 74-76); every matrix and beat attribute starts as None. The
subclass parameter attributes are assigned only after this runs, so
`params` starts empty. -/
def Features.init (file_audio : String) (featureId : String)
    (sr : ℤ) (hop_length : ℤ) (feat_type : FeatType) : FeaturesState :=
  { featureId := featureId
    audio_file := file_audio
    dur := none
    tempo := none
    sr := 1
    hop_length := 1
    feat_type := FeatType.ann_beatsync
    params := []
    framesync_features := none
    est_beatsync_features := none
    ann_beatsync_features := none
    est_beats_times := none
    est_beatsync_times := none
    est_beats_frames := none
    ann_beats_times := none
    ann_beatsync_times := none
    ann_beats_frames := none }

/-- The parameter-checking loop of `read_features` (base.py lines 213-223):
for each declared parameter name, a missing stored entry is a KeyError
(`WrongFeaturesFormatError`), a differing fingerprint raises
`FeatureParamsError`. -/
def check_params : List (String × ParamValue) → List (String × String) → Except MsafError Unit
  | [], _ => .ok ()
  | (n, v) :: rest, stored =>
      match alist_lookup stored n with
      | none => .error .wrongFeaturesFormat
      | some sv =>
          if fingerprint v ≠ sv then .error .featureParams
          else check_params rest stored

/-- Embedding of `Features.read_features` (base.py lines 177-253). The
file argument is None when the sidecar does not exist (IOError →
`NoFeaturesFileError`). Missing keys raise KeyError →
`WrongFeaturesFormatError`; failed global asserts raise AssertionError →
`FeaturesNotFound`; a missing feature block or wrong params raise
`FeatureParamsError`. On success the returned state carries the loaded
matrices and beat grids (the source mutates `self`). -/
def read_features (file : Option SidecarFile) (s : FeaturesState) (tol : ℚ) :
    Except MsafError FeaturesState :=
  match file with
  | none => .error .noFeaturesFile
  | some feats =>
    match feats.globals with
    | none => .error .wrongFeaturesFormat
    | some g =>
      match g.dur, g.tempo with
      | some gd, some gt =>
        let dur := s.dur.getD gd
        let tempo := s.tempo.getD gt
        if isclose dur gd tol ∧ isclose tempo gt tol ∧ s.sr = g.sample_rate ∧
            s.hop_length = g.hop_length ∧
            basename s.audio_file = basename g.audio_file then
          match alist_lookup feats.blocks s.featureId with
          | none => .error .featureParams
          | some blk =>
            match check_params s.params blk.params with
            | .error e => .error e
            | .ok _ =>
              match feats.est_beats, feats.est_beatsync_times with
              | some eb, some ebst =>
                let s1 := { s with
                  dur := some dur
                  tempo := some tempo
                  est_beats_times := some eb
                  est_beatsync_times := some ebst
                  est_beats_frames := some (ebst.map (fun t => tempo / 60 * t))
                  framesync_features := some blk.framesync
                  est_beatsync_features := some blk.est_beatsync }
                match feats.ann_beats with
                | none => .ok s1
                | some ab =>
                  match feats.ann_beatsync_times, blk.ann_beatsync with
                  | some abst, some annM =>
                      .ok { s1 with
                        ann_beats_times := some ab
                        ann_beatsync_times := some abst
                        ann_beats_frames := some (ab.map (fun t => tempo / 60 * t))
                        ann_beatsync_features := some annM }
                  | _, _ => .error .wrongFeaturesFormat
              | _, _ => .error .wrongFeaturesFormat
        else .error .featuresNotFound
      | _, _ => .error .typeErr

/-- The in-place mutation of `self.dur` / `self.tempo` that `read_features`
performs before its asserts (lines 192-195); it persists even when the
read later fails, and `write_features` observes it on its rebuild path. -/
def post_read_globals (file : Option SidecarFile) (s : FeaturesState) : FeaturesState :=
  match file with
  | none => s
  | some feats =>
    match feats.globals with
    | none => s
    | some g =>
      let s1 := match s.dur, g.dur with
        | none, some d => { s with dur := some d }
        | _, _ => s
      match s1.tempo, g.tempo with
      | none, some t => { s1 with tempo := some t }
      | _, _ => s1

/-- The finally-block of `write_features` (lines 292-312): the params
fingerprints and the three matrices of the current feature, as one sidecar
block. `None.tolist()` on a missing mandatory matrix is an
AttributeError. -/
def mk_block (s : FeaturesState) : Except MsafError FeatureBlock :=
  match s.framesync_features, s.est_beatsync_features with
  | some fsM, some esM =>
      .ok { params := s.params.map (fun p => (p.1, fingerprint p.2))
            framesync := fsM
            est_beatsync := esM
            ann_beatsync := s.ann_beatsync_features }
  | _, _ => .error .attributeErr

/-- `out_json[self.get_id()] = block`: replace the entry in place when the
key exists, append it otherwise (JSON object update semantics). -/
def set_block (blocks : List (String × FeatureBlock)) (fid : String)
    (blk : FeatureBlock) : List (String × FeatureBlock) :=
  if (alist_lookup blocks fid).isSome then
    blocks.map (fun p => if p.1 = fid then (fid, blk) else p)
  else blocks ++ [(fid, blk)]

/-- The rebuild path of `write_features` (lines 263-287): fresh metadata,
globals from the current attributes (possibly mutated by the failed read),
and the beat arrays; `ann_beats` only when annotated beat times exist. -/
def write_rebuild (file : Option SidecarFile) (s : FeaturesState) (meta : String) :
    Except MsafError SidecarFile :=
  let s2 := post_read_globals file s
  match s2.est_beats_times, s2.est_beatsync_times with
  | some ebt, some ebst =>
      ((match s2.ann_beats_times with
        | none => .ok (none, none)
        | some ab =>
            match s2.ann_beatsync_times with
            | some abst => .ok (some ab, some abst)
            | none => .error .attributeErr) :
          Except MsafError (Option (List ℚ) × Option (List ℚ))).bind
      (fun annPair => (mk_block s2).bind (fun blk =>
        .ok { metadata := some meta
              globals := some { dur := s2.dur
                                tempo := s2.tempo
                                sample_rate := s.sr
                                hop_length := s.hop_length
                                audio_file := s.audio_file }
              est_beats := some ebt
              est_beatsync_times := some ebst
              ann_beats := annPair.1
              ann_beatsync_times := annPair.2
              blocks := set_block [] s.featureId blk }))
  | _, _ => .error .attributeErr

/-- Embedding of `Features.write_features` (base.py lines 255-316),
returning the sidecar contents it writes. The branch structure mirrors the
try/except/finally: a successful inner read leaves `out_json` as the empty
OrderedDict (so the written file holds only the feature block);
`FeatureParamsError` reloads the existing file wholesale and adds or
replaces just this feature's block; the three recoverable read errors
rebuild the record from the current attributes. A `TypeError` from the
read is not caught and propagates. -/
def write_features (file : Option SidecarFile) (s : FeaturesState) (meta : String) :
    Except MsafError SidecarFile :=
  match read_features file s (1 / 1000) with
  | .ok sRead =>
      (mk_block sRead).bind (fun blk =>
        .ok { metadata := none
              globals := none
              est_beats := none
              est_beatsync_times := none
              ann_beats := none
              ann_beatsync_times := none
              blocks := set_block [] s.featureId blk })
  | .error .featureParams =>
      (match file with
       | none => .error .ioErr
       | some feats =>
          (mk_block (post_read_globals file s)).bind (fun blk =>
            .ok { feats with blocks := set_block feats.blocks s.featureId blk }))
  | .error .wrongFeaturesFormat => write_rebuild file s meta
  | .error .featuresNotFound => write_rebuild file s meta
  | .error .noFeaturesFile => write_rebuild file s meta
  | .error e => .error e

/-- The selection step of the `features` getter (base.py lines 399-414),
given the matrices the read/compute phase left in the attributes: framesync
and est_beatsync requests return their attribute as is (possibly None);
an ann_beatsync request with no annotated matrix, or an unrecognized
`feat_type` value, raises `FeatureTypeNotFound`. -/
def choose_features (ft : FeatType) (fsF esF anF : Option (List (List ℚ))) :
    Except MsafError (Option (List (List ℚ))) :=
  match ft with
  | .framesync => .ok fsF
  | .est_beatsync => .ok esF
  | .ann_beatsync =>
      match anF with
      | none => .error .featureTypeNotFound
      | some m => .ok (some m)
  | .invalid _ => .error .featureTypeNotFound

/-- Embedding of `Features.compute_beat_sync_features` (base.py lines
166-175): numpy row-major reshape of the (N, F) frame-sync matrix to
(R, N // R, F) followed by a sum over axis 0 and a reshape back to
(N // R, F). Entry (b, c) of the result is the sum over a < R of flat
element (a * (N / R) + b) * F + c. -/
def compute_beat_sync_features (framesync : List (List ℚ)) (beat_resolution : ℕ) :
    List (List ℚ) :=
  let flat := framesync.flatten
  let numDims := (framesync.headD []).length
  let numBeats := framesync.length / beat_resolution
  (List.range numBeats).map (fun b =>
    (List.range numDims).map (fun c =>
      ((List.range beat_resolution).map (fun a =>
        flat.getD ((a * numBeats + b) * numDims + c) 0)).sum))

/-- Beat aggregation as claim C4 words it: row j of the beat-synchronous
matrix is the sum of the `beatResolution` consecutive frame rows of beat
j, i.e. entry (j, c) sums flat elements (j * R + k) * F + c for k < R. -/
def beat_sync_claimed (framesync : List (List ℚ)) (beat_resolution : ℕ) :
    List (List ℚ) :=
  let flat := framesync.flatten
  let numDims := (framesync.headD []).length
  let numBeats := framesync.length / beat_resolution
  (List.range numBeats).map (fun j =>
    (List.range numDims).map (fun c =>
      ((List.range beat_resolution).map (fun k =>
        flat.getD ((j * beat_resolution + k) * numDims + c) 0)).sum))

/-- Lines 173-175: the annotated beat-sync matrix receives the aggregation
result and the estimated beat-sync matrix is assigned the same object. -/
def compute_beat_sync_all (framesync : List (List ℚ)) (beat_resolution : ℕ) :
    List (List ℚ) × List (List ℚ) :=
  let ann := compute_beat_sync_features framesync beat_resolution
  (ann, ann)

/-- C10: immediately after the base `Features` constructor runs, the
sampling rate is 1, the hop length is 1 and the sync mode is
annotated-beat-synchronous, whatever `sr`, `hop_length` and `feat_type`
were passed — the resulting state does not depend on those arguments at
all, so they can never influence cache validation or matrix selection. -/
theorem base_init_discards_args (af fid : String) (sr hop : ℤ) (ft : FeatType) :
    (Features.init af fid sr hop ft).sr = 1 ∧
    (Features.init af fid sr hop ft).hop_length = 1 ∧
    (Features.init af fid sr hop ft).feat_type = FeatType.ann_beatsync ∧
    ∀ (sr2 hop2 : ℤ) (ft2 : FeatType),
      Features.init af fid sr hop ft = Features.init af fid sr2 hop2 ft2 :=
  ⟨rfl, rfl, rfl, fun _ _ _ => rfl⟩

/-- C5: the `features` getter selection returns the matrix of the
requested sync mode, and raises `FeatureTypeNotFound` exactly when the
mode is annotated-beat-synchronous with no annotated matrix present, or
when the mode is not one of the three recognized values; framesync and
est_beatsync requests succeed even without annotation data, and no other
error kind can escape the selection. -/
theorem features_getter_selection (F E : List (List ℚ))
    (anF : Option (List (List ℚ))) (ft : FeatType) :
    (choose_features ft (some F) (some E) anF = .error .featureTypeNotFound ↔
      (ft = .ann_beatsync ∧ anF = none) ∨ (∃ s, ft = .invalid s)) ∧
    choose_features .framesync (some F) (some E) anF = .ok (some F) ∧
    choose_features .est_beatsync (some F) (some E) anF = .ok (some E) ∧
    (∀ A, anF = some A →
      choose_features .ann_beatsync (some F) (some E) anF = .ok (some A)) ∧
    (∀ e, choose_features ft (some F) (some E) anF = .error e →
      e = .featureTypeNotFound) := by
  refine ⟨?_, rfl, rfl, ?_, ?_⟩
  · cases ft <;> cases anF <;> simp [choose_features]
  · rintro A rfl
    rfl
  · intro e he
    cases ft <;> cases anF <;> simp [choose_features] at he <;> simp [he]

/-- Witness for C5 at concrete matrices: with no annotated matrix, the
ann_beatsync request fails with `FeatureTypeNotFound` while framesync and
est_beatsync requests succeed. -/
theorem features_getter_selection_witness :
    choose_features .ann_beatsync (some [[1]]) (some [[2]]) none =
      .error .featureTypeNotFound ∧
    choose_features .framesync (some [[1]]) (some [[2]]) none = .ok (some [[1]]) ∧
    choose_features .est_beatsync (some [[1]]) (some [[2]]) none = .ok (some [[2]]) := by
  refine ⟨?_, ?_, ?_⟩
  · exact (features_getter_selection [[1]] [[2]] none .ann_beatsync).1.mpr
      (Or.inl ⟨rfl, rfl⟩)
  · exact (features_getter_selection [[1]] [[2]] none .framesync).2.1
  · exact (features_getter_selection [[1]] [[2]] none .est_beatsync).2.2.1

/-- C4: the beat aggregation reshapes row-major to (R, N // R, F) and sums
over axis 0, so beat row j sums the strided frame rows a * (N / R) + j,
not the R consecutive rows of beat j as the claim states. On the 4-frame,
1-dimensional matrix [[1], [2], [3], [4]] with beat resolution 2 the code
yields [[1+3], [2+4]] = [[4], [6]] while the claimed consecutive-window
aggregation yields [[1+2], [3+4]] = [[3], [7]]. The est and ann variants
are the same object, as the claim's second conjunct says. -/
theorem beat_sync_strided_sum_bug :
    compute_beat_sync_features [[1], [2], [3], [4]] 2 = [[4], [6]] ∧
    beat_sync_claimed [[1], [2], [3], [4]] 2 = [[3], [7]] ∧
    compute_beat_sync_features [[1], [2], [3], [4]] 2 ≠
      beat_sync_claimed [[1], [2], [3], [4]] 2 ∧
    compute_beat_sync_all [[1], [2], [3], [4]] 2 =
      (compute_beat_sync_features [[1], [2], [3], [4]] 2,
       compute_beat_sync_features [[1], [2], [3], [4]] 2) := by
  have h1 : compute_beat_sync_features [[1], [2], [3], [4]] 2 = [[4], [6]] := by
    norm_num [compute_beat_sync_features, List.range_succ]
  have h2 : beat_sync_claimed [[1], [2], [3], [4]] 2 = [[3], [7]] := by
    norm_num [beat_sync_claimed, List.range_succ]
  refine ⟨h1, h2, ?_, rfl⟩
  rw [h1, h2]
  norm_num

/-- Helper for C9: the parameter loop fails with `FeatureParamsError` as
soon as every declared name is stored but some declared fingerprint
differs from its stored string. -/
theorem check_params_mismatch (ps : List (String × ParamValue))
    (stored : List (String × String))
    (hall : ∀ p ∈ ps, (alist_lookup stored p.1).isSome)
    (hex : ∃ p ∈ ps, ∃ sv, alist_lookup stored p.1 = some sv ∧ fingerprint p.2 ≠ sv) :
    check_params ps stored = .error .featureParams := by
  induction ps with
  | nil => simp at hex
  | cons q rest ih =>
      obtain ⟨n, v⟩ := q
      obtain ⟨sv, hsv⟩ := Option.isSome_iff_exists.mp
        (hall (n, v) (List.mem_cons_self _ _))
      simp only [check_params, hsv]
      by_cases hf : fingerprint v ≠ sv
      · rw [if_pos hf]
      · rw [if_neg hf]
        push_neg at hf
        obtain ⟨p, hp, sv', hsv', hne⟩ := hex
        rcases List.mem_cons.mp hp with rfl | hprest
        · rw [hsv] at hsv'
          cases hsv'
          exact absurd hf hne
        · exact ih (fun p hp => hall p (List.mem_cons_of_mem _ hp)) ⟨p, hprest, sv', hsv', hne⟩

/-- C9: with matching globals and an existing block for the same feature
id, any single parameter whose fingerprint no longer equals the stored
string makes the next `read_features` fail with the params-mismatch error
`FeatureParamsError`. -/
theorem param_change_causes_params_mismatch
    (f : SidecarFile) (s : FeaturesState) (tol : ℚ) (g : GlobalsJson)
    (gd gt : ℚ) (blk : FeatureBlock)
    (hg : f.globals = some g) (hgd : g.dur = some gd) (hgt : g.tempo = some gt)
    (hd : isclose (s.dur.getD gd) gd tol) (ht : isclose (s.tempo.getD gt) gt tol)
    (hsr : s.sr = g.sample_rate) (hhop : s.hop_length = g.hop_length)
    (hfile : basename s.audio_file = basename g.audio_file)
    (hblk : alist_lookup f.blocks s.featureId = some blk)
    (hall : ∀ p ∈ s.params, (alist_lookup blk.params p.1).isSome)
    (hex : ∃ p ∈ s.params, ∃ sv, alist_lookup blk.params p.1 = some sv ∧
      fingerprint p.2 ≠ sv) :
    read_features (some f) s tol = .error .featureParams := by
  have hcheck : check_params s.params blk.params = .error .featureParams :=
    check_params_mismatch _ _ hall hex
  simp only [read_features, hg, hgd, hgt]
  rw [if_pos ⟨hd, ht, hsr, hhop, hfile⟩]
  simp only [hblk, hcheck]

/-- Stored "mfcc" block used by the C9 witness, fingerprinting the "mode"
parameter as "merge". -/
def c9_block : FeatureBlock :=
  { params := [("mode", "merge")]
    framesync := [[1]]
    est_beatsync := [[1]]
    ann_beatsync := none }

/-- Sidecar file used by the C9 witness. -/
def c9_file : SidecarFile :=
  { metadata := some "m"
    globals := some { dur := some 10
                      tempo := some 120
                      sample_rate := 1
                      hop_length := 1
                      audio_file := "song.mp3" }
    est_beats := some [0]
    est_beatsync_times := some [0]
    ann_beats := none
    ann_beatsync_times := none
    blocks := [("mfcc", c9_block)] }

/-- Feature state used by the C9 witness: identical globals, but the
"mode" parameter has been changed from "merge" to "stack". -/
def c9_state : FeaturesState :=
  { featureId := "mfcc"
    audio_file := "song.mp3"
    dur := some 10
    tempo := some 120
    sr := 1
    hop_length := 1
    feat_type := FeatType.est_beatsync
    params := [("mode", ParamValue.plain "stack")]
    framesync_features := some [[1]]
    est_beatsync_features := some [[1]]
    ann_beatsync_features := none
    est_beats_times := some [0]
    est_beatsync_times := some [0]
    est_beats_frames := none
    ann_beats_times := none
    ann_beatsync_times := none
    ann_beats_frames := none }

/-- Witness for C9: changing "mode" from "merge" to "stack" while the
globals still match makes `read_features` fail with the params-mismatch
error. -/
theorem param_change_causes_params_mismatch_witness :
    isclose ((some (10 : ℚ)).getD 10) 10 (1 / 1000) ∧
    read_features (some c9_file) c9_state (1 / 1000) = .error .featureParams := by
  have hiso : isclose ((some (10 : ℚ)).getD 10) 10 (1 / 1000) := by
    norm_num [isclose]
  have hiso2 : isclose ((some (120 : ℚ)).getD 120) 120 (1 / 1000) := by
    norm_num [isclose]
  refine ⟨hiso, ?_⟩
  refine param_change_causes_params_mismatch c9_file c9_state (1 / 1000)
    { dur := some 10
      tempo := some 120
      sample_rate := 1
      hop_length := 1
      audio_file := "song.mp3" } 10 120 c9_block rfl rfl rfl hiso hiso2 rfl rfl rfl
    ?_ ?_ ?_
  · simp [c9_file, c9_state, alist_lookup]
  · intro p hp
    simp only [c9_state, List.mem_singleton] at hp
    subst hp
    simp [c9_block, alist_lookup]
  · exact ⟨("mode", ParamValue.plain "stack"), by simp [c9_state], "merge",
      by simp [c9_block, alist_lookup], by simp [fingerprint]⟩

/-- Association-list lookup distributes over append: the left list wins
when it has the key. -/
theorem alist_lookup_append {α β : Type} [DecidableEq α] (xs ys : List (α × β)) (k : α) :
    alist_lookup (xs ++ ys) k =
      match alist_lookup xs k with
      | some v => some v
      | none => alist_lookup ys k := by
  induction xs with
  | nil => simp [alist_lookup]
  | cons p rest ih =>
      obtain ⟨a, b⟩ := p
      by_cases h : a = k <;> simp [alist_lookup, h, ih]

/-- `post_read_globals` only touches `dur` and `tempo`, so the block the
finally-clause writes is unaffected by the failed read's mutation. -/
theorem mk_block_post_read (file : Option SidecarFile) (s : FeaturesState) :
    mk_block (post_read_globals file s) = mk_block s := by
  rcases file with _ | ⟨m0, glob, eb0, est0, ab0, abst0, blks0⟩
  · rfl
  · rcases glob with _ | ⟨gdu, gte, gsr, ghl, gaf⟩
    · rfl
    · obtain ⟨fid, af, du, te, sr0, hl, ft0, ps, fsf, esf, anf, ebt, ebst1, ebf,
        abt, abst1, abf⟩ := s
      rcases du with _ | d0 <;> rcases gdu with _ | gd0 <;>
        rcases te with _ | t0 <;> rcases gte with _ | gt0 <;> rfl

/-- The feature block that `write_features` writes for the current state:
parameter fingerprints plus the three matrices (finally-block, lines
292-312). -/
def new_block (s : FeaturesState) (FS ES : List (List ℚ)) : FeatureBlock :=
  { params := s.params.map (fun p => (p.1, fingerprint p.2))
    framesync := FS
    est_beatsync := ES
    ann_beatsync := s.ann_beatsync_features }

/-- C1: writing feature block B into a sidecar whose globals match the
writer and which lacks a block for B's feature id leaves every sibling
block (such as A's), the beat-grid arrays, the globals and the metadata
untouched — the written record is the old one with B's block appended —
and afterwards both A's block and the new B block are present. -/
theorem write_preserves_sibling_blocks
    (f : SidecarFile) (s : FeaturesState) (meta : String) (g : GlobalsJson)
    (gd gt : ℚ) (aId : String) (blkA : FeatureBlock) (FS ES : List (List ℚ))
    (hg : f.globals = some g) (hgd : g.dur = some gd) (hgt : g.tempo = some gt)
    (hd : isclose (s.dur.getD gd) gd (1 / 1000))
    (ht : isclose (s.tempo.getD gt) gt (1 / 1000))
    (hsr : s.sr = g.sample_rate) (hhop : s.hop_length = g.hop_length)
    (hfile : basename s.audio_file = basename g.audio_file)
    (hB : alist_lookup f.blocks s.featureId = none)
    (hA : alist_lookup f.blocks aId = some blkA)
    (hfs : s.framesync_features = some FS) (hes : s.est_beatsync_features = some ES) :
    write_features (some f) s meta =
      .ok { f with blocks := f.blocks ++ [(s.featureId, new_block s FS ES)] } ∧
    alist_lookup (f.blocks ++ [(s.featureId, new_block s FS ES)]) aId = some blkA ∧
    alist_lookup (f.blocks ++ [(s.featureId, new_block s FS ES)]) s.featureId =
      some (new_block s FS ES) ∧
    (∀ fid, fid ≠ s.featureId →
      alist_lookup (f.blocks ++ [(s.featureId, new_block s FS ES)]) fid =
        alist_lookup f.blocks fid) := by
  have hread : read_features (some f) s (1 / 1000) = .error .featureParams := by
    simp only [read_features, hg, hgd, hgt]
    rw [if_pos ⟨hd, ht, hsr, hhop, hfile⟩]
    simp only [hB]
  have hmks : mk_block s = .ok (new_block s FS ES) := by
    simp only [mk_block, hfs, hes, new_block]
  have hmk : mk_block (post_read_globals (some f) s) = .ok (new_block s FS ES) :=
    (mk_block_post_read (some f) s).trans hmks
  have hset : set_block f.blocks s.featureId (new_block s FS ES) =
      f.blocks ++ [(s.featureId, new_block s FS ES)] := by
    simp [set_block, hB]
  refine ⟨?_, ?_, ?_, ?_⟩
  · simp only [write_features, hread, hmk, except_bind_ok, hset]
  · rw [alist_lookup_append, hA]
  · rw [alist_lookup_append, hB]
    simp [alist_lookup]
  · intro fid hfid
    rw [alist_lookup_append]
    cases hx : alist_lookup f.blocks fid with
    | some v => rfl
    | none =>
        simp only [alist_lookup]
        rw [if_neg (fun h => hfid h.symm)]

/-- Existing sibling block ("pcp") for the C1 witness. -/
def c1_blockA : FeatureBlock :=
  { params := [("win", "2048")]
    framesync := [[5]]
    est_beatsync := [[6]]
    ann_beatsync := none }

/-- Sidecar for the C1 witness: matching globals, a "pcp" block, and no
"mfcc" block. -/
def c1_file : SidecarFile :=
  { metadata := some "old"
    globals := some { dur := some 10
                      tempo := some 120
                      sample_rate := 1
                      hop_length := 1
                      audio_file := "song.mp3" }
    est_beats := some [0, 1]
    est_beatsync_times := some [0, 1]
    ann_beats := none
    ann_beatsync_times := none
    blocks := [("pcp", c1_blockA)] }

/-- Writer state for the C1 witness: feature id "mfcc" with matching
globals. -/
def c1_state : FeaturesState :=
  { featureId := "mfcc"
    audio_file := "song.mp3"
    dur := some 10
    tempo := some 120
    sr := 1
    hop_length := 1
    feat_type := FeatType.est_beatsync
    params := [("mode", ParamValue.plain "merge")]
    framesync_features := some [[2]]
    est_beatsync_features := some [[3]]
    ann_beatsync_features := none
    est_beats_times := some [0, 1]
    est_beatsync_times := some [0, 1]
    est_beats_frames := none
    ann_beats_times := none
    ann_beatsync_times := none
    ann_beats_frames := none }

/-- Witness for C1: writing the "mfcc" block next to an existing "pcp"
block appends the new block and leaves the "pcp" block intact. -/
theorem write_preserves_sibling_blocks_witness :
    isclose ((some (10 : ℚ)).getD 10) 10 (1 / 1000) ∧
    write_features (some c1_file) c1_state "ts" =
      .ok { c1_file with blocks :=
        c1_file.blocks ++ [("mfcc", new_block c1_state [[2]] [[3]])] } ∧
    alist_lookup (c1_file.blocks ++ [("mfcc", new_block c1_state [[2]] [[3]])]) "pcp" =
      some c1_blockA := by
  have hiso : isclose ((some (10 : ℚ)).getD 10) 10 (1 / 1000) := by
    norm_num [isclose]
  have hiso2 : isclose ((some (120 : ℚ)).getD 120) 120 (1 / 1000) := by
    norm_num [isclose]
  have h := write_preserves_sibling_blocks c1_file c1_state "ts"
    { dur := some 10
      tempo := some 120
      sample_rate := 1
      hop_length := 1
      audio_file := "song.mp3" } 10 120 "pcp" c1_blockA [[2]] [[3]]
    rfl rfl rfl hiso hiso2 rfl rfl rfl
    (by simp [c1_file, c1_state, c1_blockA, alist_lookup])
    (by simp [c1_file, c1_state, c1_blockA, alist_lookup]) rfl rfl
  exact ⟨hiso, h.1, h.2.1⟩

/-- Feature block written and re-read in the C3 evaluation. -/
def c3_block : FeatureBlock :=
  { params := [("mode", "merge")]
    framesync := [[1]]
    est_beatsync := [[2]]
    ann_beatsync := none }

/-- Feature state for the C3 evaluation: valid globals, parameters and
matrices. -/
def c3_state : FeaturesState :=
  { featureId := "mfcc"
    audio_file := "song.mp3"
    dur := some 10
    tempo := some 120
    sr := 1
    hop_length := 1
    feat_type := FeatType.est_beatsync
    params := [("mode", ParamValue.plain "merge")]
    framesync_features := some [[1]]
    est_beatsync_features := some [[2]]
    ann_beatsync_features := none
    est_beats_times := some [0]
    est_beatsync_times := some [0]
    est_beats_frames := none
    ann_beats_times := none
    ann_beatsync_times := none
    ann_beats_frames := none }

/-- The complete sidecar produced by the first (rebuild-path) write. -/
def c3_f1 : SidecarFile :=
  { metadata := some "ts"
    globals := some { dur := some 10
                      tempo := some 120
                      sample_rate := 1
                      hop_length := 1
                      audio_file := "song.mp3" }
    est_beats := some [0]
    est_beatsync_times := some [0]
    ann_beats := none
    ann_beatsync_times := none
    blocks := [("mfcc", c3_block)] }

/-- The gutted sidecar produced by the second write: only the feature
block survives, every top-level key is gone. -/
def c3_f2 : SidecarFile :=
  { metadata := none
    globals := none
    est_beats := none
    est_beatsync_times := none
    ann_beats := none
    ann_beatsync_times := none
    blocks := [("mfcc", c3_block)] }

/-- C3: evaluating write-then-read on the code. The first write (no prior
cache) produces a complete record, but a second write on that valid cache
takes the success path of the inner read, leaves `out_json` empty, and
rewrites the sidecar with only the feature block — no "globals" key — so
the following read fails with `WrongFeaturesFormatError` instead of
succeeding as the claim requires. -/
theorem write_after_valid_read_destroys_cache :
    write_features none c3_state "ts" = .ok c3_f1 ∧
    write_features (some c3_f1) c3_state "ts" = .ok c3_f2 ∧
    c3_f2.globals = none ∧
    read_features (some c3_f2) c3_state (1 / 1000) = .error .wrongFeaturesFormat := by
  have h1 : isclose (10 : ℚ) 10 (1 / 1000) := by norm_num [isclose]
  have h2 : isclose (120 : ℚ) 120 (1 / 1000) := by norm_num [isclose]
  refine ⟨?_, ?_, rfl, ?_⟩
  · simp [write_features, read_features, write_rebuild, post_read_globals, mk_block,
      set_block, alist_lookup, c3_state, c3_f1, c3_block, fingerprint]
  · have hread : read_features (some c3_f1) c3_state (1 / 1000) = .ok ({ c3_state with
        dur := some 10
        tempo := some 120
        est_beats_times := some [0]
        est_beatsync_times := some [0]
        est_beats_frames := some [0]
        framesync_features := some [[1]]
        est_beatsync_features := some [[2]] }) := by
      simp [read_features, c3_f1, c3_state, check_params, alist_lookup, fingerprint,
        c3_block]
      norm_num [isclose]
    simp only [write_features, hread]
    simp [mk_block, set_block, alist_lookup, c3_f2, c3_block, fingerprint, c3_state]
  · simp [read_features, c3_f2]

end MusicSeg
